import Mathlib

/-!
Verification development for the armusevideo repository: a shallow
embedding of the Task List Generator (expt_file_generator.py), the
session state machine of the Primary Recorder Application and segment
logging (parkour.py), and the Standalone Video Viewer Widget
(parkour_video_viewer.py), together with theorems settling the
specification claims.
-/

namespace Parkour

/-- Python double-quote character, written by code point to keep the
source free of quote literals. -/
def quote_char : Char := Char.ofNat 34

/-- Python str.replace applied with the quote character and the empty
replacement: every double quote in the string is removed. -/
def stripQuotes (s : String) : String :=
  String.mk (s.data.filter (fun c => c ≠ quote_char))

/-- Accumulator-style splitter over the character list, modelling the
behaviour of Python str.split on a comma separator. -/
def split_comma_aux : List Char → List Char → List String
  | [], acc => [String.mk acc.reverse]
  | c :: cs, acc =>
    if c = ',' then String.mk acc.reverse :: split_comma_aux cs []
    else split_comma_aux cs (c :: acc)

/-- Python td.split with a comma separator. -/
def py_split_comma (s : String) : List String := split_comma_aux s.data []

/-- Field index 1 of a row (the task name before quote stripping is
applied), raising IndexError when the row has fewer than two fields;
this models the expression td.split(sep)[1].replace of
expt_file_generator.py. -/
def row_name (td : String) : Except String String :=
  match (py_split_comma td).get? 1 with
  | some f => Except.ok (stripQuotes f)
  | none => Except.error "IndexError: list index out of range"

/-- Fields 2 and 3 of a row with quotes stripped: the slice td.split(sep)[2:4]
mapped through the quote-removing replace. Slicing never raises, so a
short row yields a truncated list. -/
def row_instr (td : String) : List String :=
  (((py_split_comma td).drop 2).take 2).map stripQuotes

/-- The list comprehension of expt_file_generator.py over the data rows:
for each row, evaluate the guard (which indexes field 1 and hence can
raise IndexError), drop rows whose stripped name is empty, and build
the pair of the stripped name and the stripped fields 2 and 3. -/
def expt_tasks_rows : List String → Except String (List (String × List String))
  | [] => Except.ok []
  | td :: rest =>
    match row_name td with
    | Except.error e => Except.error e
    | Except.ok nm =>
      match expt_tasks_rows rest with
      | Except.error e => Except.error e
      | Except.ok tl =>
        if nm.length ≠ 0 then Except.ok ((nm, row_instr td) :: tl)
        else Except.ok tl

/-- The tasks entry of the expt_params dictionary built by
expt_file_generator.py: the first two lines of tasks.csv are skipped
unconditionally (task_data[2:]) and the remaining rows are parsed by
the comprehension. -/
def expt_tasks (task_data : List String) : Except String (List (String × List String)) :=
  expt_tasks_rows (task_data.drop 2)

/-- Boolean success test on an Except value. -/
def is_ok : Except ε α → Bool
  | Except.ok _ => true
  | Except.error _ => false

/-- Python list indexing l[i]: negative indices count from the end and an
out-of-range access yields none (the model of a raised IndexError). -/
def py_get (l : List α) (i : Int) : Option α :=
  if 0 ≤ i then l.get? i.toNat
  else if (-i).toNat ≤ l.length then l.get? (l.length - (-i).toNat) else none

/-- Python str applied to an optional string: None prints as the word
None inside an f-string. -/
def py_str : Option String → String
  | some s => s
  | none => "None"

/-- Zero left-padding of a digit string to the given width. -/
def zfill_to (w : Nat) (s : String) : String :=
  if w ≤ s.length then s
  else String.mk (List.replicate (w - s.length) '0') ++ s

/-- Python format specifier 03d as used for the task index in the segment
base name: total width 3, zero-padded after the sign. -/
def format03d (n : Int) : String :=
  if n < 0 then "-" ++ zfill_to 2 (Nat.repr (-n).toNat)
  else zfill_to 3 (Nat.repr n.toNat)

/-- Python list repetition lst * n for a non-negative count. -/
def py_list_mul (l : List α) : Nat → List α
  | 0 => []
  | k + 1 => l ++ py_list_mul l k

/-- Task entry as stored in expt_params.json: a name and the list of
instruction strings (the generator writes a 2-element list, but the
JSON shape does not force that). -/
structure PTask where
  name : String
  instr : List String
deriving DecidableEq

/-- Parse of expt_params.json. The dictionary keys are name, N,
camera index, outdir, nontaskprefix and taskprefix in the source; the
two prefix fields are called pfx here. -/
structure Params where
  name : String
  n : Int
  camera_index : Int
  outdir : String
  nontaskpfx : String
  taskpfx : String
  tasks : List PTask
deriving DecidableEq

/-- States of the ParkourRecorder state machine (ParkourRecorderStates). -/
inductive RecState
  | Start
  | WaitingToStart
  | WaitingToRecordTask
  | RecordingTask
  | WaitingForAllDone
  | AllDone
deriving DecidableEq

/-- The experiment attribute container self.expt of ParkourRecorder.
Timestamps are modelled as naturals. vidwriter and vidtfhndl are a pair
of handles always rebound together; openBase is the base name they
currently reference (none models the Python None references). Fields
that only feed the clock display (starttime, exptdur) are omitted. -/
structure Expt where
  subject : Option String
  outdir : Option String
  basefname : Option String
  tasks : List PTask
  currtaskindx : Option Int
  currtaskstrt : Option Nat
  currtaskstpt : Option Nat
  datafiles : List (String × String)
  recording : Bool
  params : Params
  openBase : Option String
deriving DecidableEq

/-- Snapshot written to experiment_details.json. -/
structure Manifest where
  subject : Option String
  tasks : List PTask
  datafiles : List (String × String)
deriving DecidableEq

/-- The recorder window together with its file-system effects: the state
machine state, the expt container, the base names of the video/vidt
pairs opened and not yet released, the trace of manifest writes, the
current parse of expt_params.json on disk (none when the file is
missing or malformed), and the instruction panel text. -/
structure Sys where
  state : RecState
  expt : Expt
  openPairs : List String
  manifests : List Manifest
  diskCfg : Option Params
  instrPanel : List String
deriving DecidableEq

/-- Outcome of an operation that can raise a Python exception: an error
carries the message and the system state at the raise point. -/
abbrev Res := Except (String × Sys) Sys

/-- Releasing the currently referenced vidwriter/vidtfhndl pair: the pair
leaves the open list; calling release on a Python None raises. -/
def release_pair (s : Sys) : Res :=
  match s.expt.openBase with
  | some b => Except.ok { s with openPairs := s.openPairs.erase b }
  | none => Except.error ("AttributeError: NoneType has no attribute release", s)

/-- ParkourRecorder._stop_logging: the pair is closed only when the
recording flag is set; basefname is cleared but the recording flag is
left untouched (the valid argument of the source is unused). -/
def stop_logging (s : Sys) : Res :=
  if s.expt.recording then
    match release_pair s with
    | Except.error e => Except.error e
    | Except.ok s1 =>
      Except.ok { s1 with expt := { s1.expt with basefname := none } }
  else Except.ok s

/-- ParkourRecorder._save_experiment_details: re-reads expt_params.json
from disk, overwriting the in-memory params, then rewrites
experiment_details.json under the session output directory (appended to
the manifest trace); a missing or malformed configuration file raises
before anything is written. -/
def save_experiment_details (s : Sys) : Res :=
  match s.diskCfg with
  | none => Except.error ("configuration load failure", s)
  | some p =>
    let s1 : Sys := { s with expt := { s.expt with params := p } }
    match s1.expt.outdir with
    | none => Except.error ("TypeError: join argument of NoneType", s1)
    | some _ =>
      Except.ok { s1 with manifests := s1.manifests ++
        [{ subject := s1.expt.subject, tasks := s1.expt.tasks,
           datafiles := s1.expt.datafiles }] }

/-- Creation of the cv2.VideoWriter on base.avi and of the base.vidt file
handle, followed by the manifest rewrite, as at the end of
ParkourRecorder._start_logging. -/
def open_writers (base : String) (s : Sys) : Res :=
  save_experiment_details
    { s with openPairs := s.openPairs ++ [base],
             expt := { s.expt with openBase := some base } }

/-- Head of ParkourRecorder._start_logging: the close-the-existing-file
branch, guarded by the recording flag; it releases the referenced pair
and clears the recording flag and basefname. -/
def close_on_reopen (s0 : Sys) : Res :=
  if s0.expt.recording then
    match release_pair s0 with
    | Except.error e => Except.error e
    | Except.ok s1 =>
      Except.ok { s1 with expt :=
        { s1.expt with recording := false, basefname := none } }
  else Except.ok s0

/-- Body of ParkourRecorder._start_logging after the guarded close
branch: the base name is assembled in two assignments, the data-file
entry is appended (indexing the task list, which can raise), and the
writers are created before the manifest rewrite. -/
def start_logging_tail (task : Bool) (ct : Nat) (s : Sys) : Res :=
    let pre := py_str s.expt.outdir ++ "/"
    if task then
      match s.expt.currtaskindx with
      | none =>
        Except.error ("TypeError: unsupported format string for NoneType",
          { s with expt := { s.expt with basefname := some pre } })
      | some i =>
        let base := pre ++ s.expt.params.taskpfx ++ "_" ++ format03d i
                      ++ "_" ++ Nat.repr ct
        let s1 : Sys := { s with expt := { s.expt with basefname := some base } }
        match py_get s1.expt.tasks i with
        | none => Except.error ("IndexError: list index out of range", s1)
        | some t =>
          let s2 : Sys := { s1 with expt :=
            { s1.expt with datafiles := s1.expt.datafiles ++ [(base, t.name)] } }
          open_writers base s2
    else
      let base := pre ++ s.expt.params.nontaskpfx ++ "_x_" ++ Nat.repr ct
      let s2 : Sys := { s with expt :=
        { s.expt with basefname := some base,
                      datafiles := s.expt.datafiles ++ [(base, "")] } }
      open_writers base s2

/-- ParkourRecorder._start_logging. The task argument mirrors the Python
parameter (the task=None of the first call is falsy and is passed here
as false); ct is int(dt.now().timestamp() * 1e6) and os.sep is taken as
the slash: the guarded close branch (close_on_reopen) followed by the
naming, data-file and writer-creation body (start_logging_tail). -/
def start_logging (task : Bool) (ct : Nat) (s0 : Sys) : Res :=
  match close_on_reopen s0 with
  | Except.error e => Except.error e
  | Except.ok s => start_logging_tail task ct s

/-- ParkourRecorder._set_current_task: init sets the index to 0, otherwise
the index is incremented (incrementing an unset index raises TypeError);
when the new index has reached the task list length the call reports
False, otherwise the task timestamps and the recording flag are cleared. -/
def set_current_task (init : Bool) (s : Sys) : Except (String × Sys) (Bool × Sys) :=
  match (if init then Except.ok 0 else
          match s.expt.currtaskindx with
          | some i => Except.ok (i + 1)
          | none =>
            (Except.error ("TypeError: unsupported operand for NoneType", s) :
              Except (String × Sys) Int)) with
  | Except.error e => Except.error e
  | Except.ok i =>
    let s1 : Sys := { s with expt := { s.expt with currtaskindx := some i } }
    if (s1.expt.tasks.length : Int) ≤ i then Except.ok (false, s1)
    else
      Except.ok (true, { s1 with expt := { s1.expt with
        currtaskstrt := none, currtaskstpt := none, recording := false } })

/-- ParkourRecorder._prepare_for_the_next_task: set the current task and,
when one is left, refresh the instruction panel from its name and its
two instruction strings (indexing the instruction list can raise). -/
def prepare_for_the_next_task (init : Bool) (s : Sys) :
    Except (String × Sys) (Bool × Sys) :=
  match set_current_task init s with
  | Except.error e => Except.error e
  | Except.ok (false, s1) => Except.ok (false, s1)
  | Except.ok (true, s1) =>
    match s1.expt.currtaskindx with
    | none => Except.error ("TypeError: list index of NoneType", s1)
    | some i =>
      match py_get s1.expt.tasks i with
      | none => Except.error ("IndexError: list index out of range", s1)
      | some t =>
        match py_get t.instr 0 with
        | none => Except.error ("IndexError: list index out of range", s1)
        | some i0 =>
          match py_get t.instr 1 with
          | none => Except.error ("IndexError: list index out of range", s1)
          | some i1 =>
            Except.ok (true, { s1 with instrPanel :=
              ["Task: " ++ t.name, "", "Instruction:", i0, "", "To do:", i1] })

/-- ParkourRecorder._redo_task: when the current task index is positive it
is decremented by 2 and the standard advance-by-one step is re-applied;
comparing an unset index against 0 raises TypeError. -/
def redo_task (s : Sys) : Res :=
  match s.expt.currtaskindx with
  | none => Except.error ("TypeError: unorderable NoneType and int", s)
  | some i =>
    if 0 < i then
      match prepare_for_the_next_task false
              { s with expt := { s.expt with currtaskindx := some (i - 2) } } with
      | Except.error e => Except.error e
      | Except.ok (_, s1) => Except.ok s1
    else Except.ok s

/-- ParkourRecorder.keyPressEvent for the Enter key with no modifier. The
event is ignored in WaitingToStart; now is dt.now() at the press and ct
the microsecond timestamp used by _start_logging; update_ui only
repaints widgets and is omitted. -/
def key_enter (now ct : Nat) (s : Sys) : Res :=
  if s.state = RecState.WaitingToStart then Except.ok s
  else if s.expt.recording then
    let sStop : Sys := { s with expt := { s.expt with currtaskstpt := some now } }
    match stop_logging sStop with
    | Except.error e => Except.error e
    | Except.ok s1 =>
      let sNext : Sys := { s1 with expt := { s1.expt with recording := false } }
      match prepare_for_the_next_task false sNext with
      | Except.error e => Except.error e
      | Except.ok (more, s2) =>
        start_logging false ct
          { s2 with state := if more then RecState.WaitingToRecordTask
                             else RecState.WaitingForAllDone }
  else if s.state ≠ RecState.WaitingForAllDone then
    let sRec : Sys := { s with expt :=
      { s.expt with currtaskstrt := some now, currtaskstpt := none } }
    match start_logging true ct sRec with
    | Except.error e => Except.error e
    | Except.ok s1 =>
      Except.ok { s1 with state := RecState.RecordingTask,
                          expt := { s1.expt with recording := true } }
  else
    match stop_logging s with
    | Except.error e => Except.error e
    | Except.ok s1 => Except.ok { s1 with state := RecState.AllDone }

/-- ParkourRecorder.keyPressEvent for the R key with the Control modifier:
ignored in WaitingToStart, otherwise _redo_task runs and the state is
set to WaitingToRecordTask. -/
def key_ctrl_r (s : Sys) : Res :=
  if s.state = RecState.WaitingToStart then Except.ok s
  else
    match redo_task s with
    | Except.error e => Except.error e
    | Except.ok s1 => Except.ok { s1 with state := RecState.WaitingToRecordTask }

/-- ParkourRecorder._start_expt: the subject id is the entered name joined
with the formatted start time, the session directory is outdir/name/subject,
the runtime task list is the configured list times N (random.shuffle is
commented out in the source), and the data-file list and recording flag
are reset. -/
def start_expt (entered_name start_stamp : String) (s : Sys) : Sys :=
  let subject := entered_name ++ "_" ++ start_stamp
  let outdir := s.expt.params.outdir ++ "/" ++ s.expt.params.name ++ "/" ++ subject
  { s with expt := { s.expt with
      subject := some subject,
      outdir := some outdir,
      tasks := py_list_mul s.expt.params.tasks s.expt.params.n.toNat,
      datafiles := [],
      recording := false } }

/-- ParkourRecorder._callback_start_stop_expt after a confirmed start:
_start_expt, the first non-task _start_logging call, the transition to
WaitingToRecordTask, and the initializing _prepare_for_the_next_task
(falling through to WaitingForAllDone on an empty task list). -/
def start_session (entered_name start_stamp : String) (ct : Nat) (s : Sys) : Res :=
  match start_logging false ct (start_expt entered_name start_stamp s) with
  | Except.error e => Except.error e
  | Except.ok s1 =>
    match prepare_for_the_next_task true
            { s1 with state := RecState.WaitingToRecordTask } with
    | Except.error e => Except.error e
    | Except.ok (more, s2) =>
      Except.ok (if more then s2 else { s2 with state := RecState.WaitingForAllDone })

/-- Extraction of the system state carried by a raised exception. -/
def err_sys : Res → Option Sys
  | Except.error (_, s) => some s
  | Except.ok _ => none

/-- Extraction of the system state of a normal completion. -/
def ok_sys : Res → Option Sys
  | Except.ok s => some s
  | Except.error _ => none

/-- A configuration document with a single task, as the generator would
produce it for one data row. -/
def demo_params : Params :=
  { name := "Proto", n := 1, camera_index := 0, outdir := "data",
    nontaskpfx := "unlabelled", taskpfx := "task",
    tasks := [{ name := "Task A", instr := ["Step 1", "Do 1"] }] }

/-- The recorder just after construction: WaitingToStart, empty expt
fields, demo_params loaded from a present configuration file. -/
def demo_sys0 : Sys :=
  { state := RecState.WaitingToStart,
    expt := { subject := none, outdir := none, basefname := none,
              tasks := [], currtaskindx := none, currtaskstrt := none,
              currtaskstpt := none, datafiles := [], recording := false,
              params := demo_params, openBase := none },
    openPairs := [], manifests := [], diskCfg := some demo_params,
    instrPanel := [] }

/-- The demo session just after the confirmed start. -/
def demo_run1 : Res := start_session "subj" "t0" 100 demo_sys0

/-- The demo session after Enter starts recording the task. -/
def demo_run2 : Res :=
  match demo_run1 with
  | Except.error e => Except.error e
  | Except.ok s => key_enter 1 200 s

/-- The demo session after a second Enter stops the task. -/
def demo_run3 : Res :=
  match demo_run2 with
  | Except.error e => Except.error e
  | Except.ok s => key_enter 2 300 s

/-- The demo session after a third Enter acknowledges WaitingForAllDone. -/
def demo_run4 : Res :=
  match demo_run3 with
  | Except.error e => Except.error e
  | Except.ok s => key_enter 3 400 s

/-- Extraction of the message carried by a raised exception. -/
def err_msg : Res → Option String
  | Except.error (m, _) => some m
  | Except.ok _ => none

/-- A started-session configuration whose current task index was left
unset: the field holds the Python None. -/
def c9_sys : Sys := { demo_sys0 with state := RecState.RecordingTask }

/-- Modelled from the spec wording, for comparison with the runtime
construction: the configured task list repeated n times by
concatenation, in the original order. -/
def spec_repeat (l : List α) (n : Nat) : List α := (List.replicate n l).flatten

/-- The two-task, two-repeat configuration of the spec example. -/
def taskA : PTask := { name := "A", instr := ["stepA", "todoA"] }

def taskB : PTask := { name := "B", instr := ["stepB", "todoB"] }

def c5_sys : Sys :=
  { demo_sys0 with expt := { demo_sys0.expt with
      params := { demo_params with n := 2, tasks := [taskA, taskB] } } }

/-- A mid-session configuration matching the spec naming example: output
directory data/Proto/subj, four runtime tasks, current task index 3,
nothing currently recorded. -/
def c6_sys : Sys :=
  { demo_sys0 with
    expt := { demo_sys0.expt with
      outdir := some "data/Proto/subj",
      tasks := [taskA, taskB, taskA, taskB],
      currtaskindx := some 3 } }

/-- The system state after the close branch has released the pair b:
the pair leaves the open list and the recording flag and basefname are
cleared. -/
def closed_state (s : Sys) (b : String) : Sys :=
  { s with
    openPairs := s.openPairs.erase b,
    expt := { s.expt with recording := false, basefname := none } }

/-- A WaitingToRecordTask configuration at task index 1 of a two-task
session (nothing open, nothing recorded yet in this segment). -/
def c7_sys : Sys :=
  { demo_sys0 with
    state := RecState.WaitingToRecordTask,
    expt := { demo_sys0.expt with
      tasks := [taskA, taskB],
      currtaskindx := some 1 } }

/-- An AllDone configuration at index 0 of a one-task session. -/
def c9w_sys : Sys :=
  { demo_sys0 with
    state := RecState.AllDone,
    expt := { demo_sys0.expt with
      tasks := [taskA],
      currtaskindx := some 0 } }

/-- Video writer parameters of a cv2.VideoWriter created by the viewer. -/
structure VideoSpec where
  path : String
  codec : String
  fps : Nat
  size : Nat × Nat
deriving DecidableEq

/-- File events performed by the viewer filename setter, in order. -/
inductive FileEvent
  | releaseVideo (spec : VideoSpec)
  | closeTs (path : String)
  | openVideo (spec : VideoSpec)
  | openTs (path : String)
deriving DecidableEq

/-- The Standalone Video Viewer Widget state relevant to recording: the
fixed preview size set in __init__ and the current recording filename
together with the referenced video writer and timestamp file handle. -/
structure Viewer where
  img_w : Nat
  img_h : Nat
  filename : Option String
  video : Option VideoSpec
  fhandle : Option String
deriving DecidableEq

/-- ParkourVideoViewer.__init__ recording fields: the fixed size is
3 * 640 // 2 by 3 * 480 // 2 and logging starts disabled. -/
def viewer_init : Viewer :=
  { img_w := 3 * 640 / 2, img_h := 3 * 480 / 2,
    filename := none, video := none, fhandle := none }

/-- The ParkourVideoViewer.filename setter: when the value equals the
current filename nothing happens; otherwise any previously open
video/timestamp files are closed first (releasing a Python None would
raise), the filename is installed, and when the new value is not None a
video writer on value.avi with codec MJPG at 30 frames per second and
the fixed img_w by img_h frame size is created together with the
timestamp file value.vidt. The returned list holds the file events in
execution order. -/
def set_filename (v : Viewer) (value : Option String) :
    Except String (Viewer × List FileEvent) :=
  if v.filename ≠ value then
    match (match v.filename with
           | some _ =>
             match v.video, v.fhandle with
             | some vs, some fh =>
               Except.ok [FileEvent.releaseVideo vs, FileEvent.closeTs fh]
             | _, _ =>
               (Except.error "AttributeError: NoneType has no attribute release" :
                 Except String (List FileEvent))
           | none => Except.ok []) with
    | Except.error e => Except.error e
    | Except.ok evs =>
      match value with
      | some f =>
        Except.ok
          ({ v with filename := some f,
                    video := some { path := f ++ ".avi", codec := "MJPG",
                                    fps := 30, size := (v.img_w, v.img_h) },
                    fhandle := some (f ++ ".vidt") },
           evs ++ [FileEvent.openVideo { path := f ++ ".avi", codec := "MJPG",
                                         fps := 30, size := (v.img_w, v.img_h) },
                   FileEvent.openTs (f ++ ".vidt")])
      | none => Except.ok ({ v with filename := none }, evs)
  else Except.ok (v, [])

/-- A viewer currently recording under the name old. -/
def c8_viewer : Viewer :=
  { viewer_init with
    filename := some "old",
    video := some { path := "old.avi", codec := "MJPG", fps := 30,
                    size := (960, 720) },
    fhandle := some "old.vidt" }

/-- One step of the generator comprehension succeeds exactly when the
leading row has at least two comma-separated fields and the remaining
rows succeed. -/
theorem expt_tasks_rows_ok_cons (td : String) (rest : List String) :
    is_ok (expt_tasks_rows (td :: rest)) =
      (decide (2 ≤ (py_split_comma td).length) && is_ok (expt_tasks_rows rest)) := by
  simp only [expt_tasks_rows, row_name]
  cases h : (py_split_comma td).get? 1 with
  | none =>
    have hlen : (py_split_comma td).length ≤ 1 := List.get?_eq_none.mp h
    have : ¬ 2 ≤ (py_split_comma td).length := by omega
    simp [is_ok, this]
  | some f =>
    have hlen : 2 ≤ (py_split_comma td).length := by
      by_contra hc
      push_neg at hc
      rw [List.get?_eq_none.mpr (by omega)] at h
      exact Option.noConfusion h
    cases hrest : expt_tasks_rows rest with
    | error e => simp [is_ok, hlen]
    | ok tl =>
      by_cases hnm : (stripQuotes f).length ≠ 0 <;> simp [is_ok, hlen, hnm]

/-- C3 counterexample: the row x,TaskA past the two header lines has only
two comma-separated fields (fewer than 4), yet the generator does not
raise: it produces the entry with a truncated instruction list. -/
theorem c3_counterexample :
    (py_split_comma "x,TaskA").length < 4
    ∧ expt_tasks ["h1", "h2", "x,TaskA"] = Except.ok [("TaskA", [])] :=
  ⟨by decide, rfl⟩

/-- C3 (amended): the Task List Generator raises the underlying indexing
error exactly when some row past the two header lines has fewer than 2
comma-separated fields (that is, contains no comma); rows with 2 or 3
fields are processed without error, with the instruction list silently
truncated. -/
theorem c3_generator_failure (task_data : List String) :
    is_ok (expt_tasks task_data) = true ↔
      ∀ td ∈ task_data.drop 2, 2 ≤ (py_split_comma td).length := by
  unfold expt_tasks
  induction task_data.drop 2 with
  | nil => simp [expt_tasks_rows, is_ok]
  | cons td rest ih =>
    rw [expt_tasks_rows_ok_cons]
    simp [ih]

/-- Witness for C3 (amended) at a concrete input: a table whose single
data row has four fields parses successfully. -/
theorem c3_generator_failure_witness :
    is_ok (expt_tasks ["h1", "h2", "a,b,c,d"]) = true :=
  (c3_generator_failure ["h1", "h2", "a,b,c,d"]).mpr (by decide)

/-- C4: the generator skips the first two lines unconditionally; a row
whose field index 1 exists contributes the quote-stripped field 1 as the
task name and the quote-stripped fields 2 and 3 as the instruction pair
when the stripped name is non-empty, and is dropped otherwise; on the
two concrete rows of the claim the output task list is exactly the
single Task A entry. -/
theorem c4_generator :
    (∀ l1 l2 rows, expt_tasks (l1 :: l2 :: rows) = expt_tasks_rows rows)
    ∧ (∀ td rest f, (py_split_comma td).get? 1 = some f →
        expt_tasks_rows (td :: rest) =
          (if (stripQuotes f).length ≠ 0 then
            (expt_tasks_rows rest).map
              (fun tl => (stripQuotes f, row_instr td) :: tl)
          else expt_tasks_rows rest))
    ∧ expt_tasks ["hdr1", "hdr2",
        "\"\",\"Task A\",\"Step 1\",\"Do 1\"",
        "\"\",\"\",\"Step 2\",\"Do 2\""] =
        Except.ok [("Task A", ["Step 1", "Do 1"])] := by
  refine ⟨fun l1 l2 rows => rfl, ?_, rfl⟩
  intro td rest f hf
  simp only [expt_tasks_rows, row_name, hf]
  cases hrest : expt_tasks_rows rest with
  | error e =>
    by_cases h : (stripQuotes f).length ≠ 0 <;> simp [h, Except.map]
  | ok tl =>
    by_cases h : (stripQuotes f).length ≠ 0 <;> simp [h, Except.map]

/-- Witness for C4 at a concrete input: the first claim row read through
the row-level characterization. -/
theorem c4_generator_witness :
    expt_tasks_rows ["\"\",\"Task A\",\"Step 1\",\"Do 1\""] =
      (expt_tasks_rows []).map
        (fun tl => ("Task A", ["Step 1", "Do 1"]) :: tl) := by
  rw [c4_generator.2.1 "\"\",\"Task A\",\"Step 1\",\"Do 1\"" [] "\"Task A\"" rfl]
  rfl

/-- C1 counterexample: right after the session start the non-task pair
unlabelled_x_100 is open and referenced; the Enter press that opens the
task segment creates the new pair task_000_200 while the previous pair
is still listed as open — the previously open video writer and
timestamp file were not closed before the new pair was created, because
the close branch of the open operation is guarded by the recording
flag, which is false while a non-task segment is open. -/
theorem c1_counterexample :
    (ok_sys demo_run1).map (fun s => (s.expt.recording, s.expt.openBase, s.openPairs)) =
      some (false, some "data/Proto/subj_t0/unlabelled_x_100",
            ["data/Proto/subj_t0/unlabelled_x_100"])
    ∧ (ok_sys demo_run2).map (fun s => (s.expt.openBase, s.openPairs)) =
      some (some "data/Proto/subj_t0/task_000_200",
            ["data/Proto/subj_t0/unlabelled_x_100",
             "data/Proto/subj_t0/task_000_200"]) :=
  ⟨rfl, rfl⟩

/-- C2: evaluation at the failing input. The demo session reaches AllDone
with two pairs still open; a further Enter press does not complete: the
handler takes the branch that starts recording a task and raises
IndexError while indexing the exhausted task list; at the raise point
the machine state is still AllDone and no new video writer was created,
but the press is not the no-op the claim describes. -/
theorem c2_all_done_enter_raises :
    (ok_sys demo_run4).map (fun s => (s.state, s.expt.currtaskindx, s.openPairs.length)) =
      some (RecState.AllDone, some 1, 2)
    ∧ ((ok_sys demo_run4).bind (fun s => ok_sys (key_enter 4 500 s))) = none
    ∧ ((ok_sys demo_run4).bind (fun s => err_msg (key_enter 4 500 s))) =
      some "IndexError: list index out of range"
    ∧ ((ok_sys demo_run4).bind (fun s => err_sys (key_enter 4 500 s))).map
        (fun s => (s.state, s.openPairs.length, s.expt.currtaskstrt)) =
      some (RecState.AllDone, 2, some 4) :=
  ⟨rfl, rfl, rfl, rfl⟩

/-- C9 counterexample: with the current task index unset, Ctrl+R does not
set the state to WaitingToRecordTask — comparing None against 0 raises
TypeError and the handler aborts with the state unchanged. -/
theorem c9_counterexample :
    c9_sys.expt.currtaskindx = none
    ∧ ok_sys (key_ctrl_r c9_sys) = none
    ∧ (err_sys (key_ctrl_r c9_sys)).map (fun s => s.state) =
      some RecState.RecordingTask :=
  ⟨rfl, rfl, rfl⟩

/-- Python list repetition agrees with n-fold concatenation. -/
theorem py_list_mul_eq_join (l : List α) (n : Nat) :
    py_list_mul l n = spec_repeat l n := by
  induction n with
  | zero => rfl
  | succ k ih => simp [py_list_mul, spec_repeat, List.replicate, ih]

/-- C5: on session start the runtime task list is the configured task
list repeated N times by concatenation in the original order, for every
configured list and every N at least 1. -/
theorem c5_runtime_task_list (s : Sys) (en st : String)
    (_h : 1 ≤ s.expt.params.n) :
    (start_expt en st s).expt.tasks =
      spec_repeat s.expt.params.tasks s.expt.params.n.toNat := by
  unfold start_expt
  simpa using py_list_mul_eq_join s.expt.params.tasks s.expt.params.n.toNat

/-- Witness for C5 at the spec example: tasks [A, B] with N = 2 yield the
runtime list [A, B, A, B]. -/
theorem c5_runtime_task_list_witness :
    (1 : Int) ≤ c5_sys.expt.params.n
    ∧ (start_expt "e" "t" c5_sys).expt.tasks = [taskA, taskB, taskA, taskB] :=
  ⟨by decide, (c5_runtime_task_list c5_sys "e" "t" (by decide)).trans rfl⟩

/-- C6: every segment open computes the base filename from the session
output directory, the configured prefix, the zero-padded task index (for
a task segment) or the literal x (for a non-task one), and the
microsecond timestamp, and appends the pair of the base filename with
the task name (task segment) or the empty string (non-task segment) to
the session data-file list. -/
theorem c6_segment_naming :
    (∀ (s : Sys) (ct : Nat) (i : Int) (t : PTask) (s1 : Sys),
      s.expt.recording = false →
      s.expt.currtaskindx = some i →
      py_get s.expt.tasks i = some t →
      start_logging true ct s = Except.ok s1 →
      s1.expt.basefname = some (py_str s.expt.outdir ++ "/" ++ s.expt.params.taskpfx
          ++ "_" ++ format03d i ++ "_" ++ Nat.repr ct)
      ∧ s1.expt.datafiles = s.expt.datafiles ++
          [(py_str s.expt.outdir ++ "/" ++ s.expt.params.taskpfx
            ++ "_" ++ format03d i ++ "_" ++ Nat.repr ct, t.name)])
    ∧ (∀ (s : Sys) (ct : Nat) (s1 : Sys),
      s.expt.recording = false →
      start_logging false ct s = Except.ok s1 →
      s1.expt.basefname = some (py_str s.expt.outdir ++ "/" ++ s.expt.params.nontaskpfx
          ++ "_x_" ++ Nat.repr ct)
      ∧ s1.expt.datafiles = s.expt.datafiles ++
          [(py_str s.expt.outdir ++ "/" ++ s.expt.params.nontaskpfx
            ++ "_x_" ++ Nat.repr ct, "")]) := by
  constructor
  · intro s ct i t s1 hrec hidx hget hrun
    have hclose : close_on_reopen s = Except.ok s := by
      simp [close_on_reopen, hrec]
    unfold start_logging at hrun
    rw [hclose] at hrun
    dsimp only at hrun
    unfold start_logging_tail at hrun
    dsimp only at hrun
    rw [hidx] at hrun
    dsimp only at hrun
    rw [hget] at hrun
    unfold open_writers save_experiment_details at hrun
    dsimp only at hrun
    cases hcfg : s.diskCfg with
    | none => rw [hcfg] at hrun; exact absurd hrun (by simp)
    | some p =>
      rw [hcfg] at hrun
      dsimp only at hrun
      cases houd : s.expt.outdir with
      | none => rw [houd] at hrun; exact absurd hrun (by simp)
      | some d =>
        rw [houd] at hrun
        dsimp only at hrun
        injection hrun with h
        subst h
        exact ⟨rfl, rfl⟩
  · intro s ct s1 hrec hrun
    have hclose : close_on_reopen s = Except.ok s := by
      simp [close_on_reopen, hrec]
    unfold start_logging at hrun
    rw [hclose] at hrun
    dsimp only at hrun
    unfold start_logging_tail open_writers save_experiment_details at hrun
    dsimp only at hrun
    cases hcfg : s.diskCfg with
    | none => rw [hcfg] at hrun; exact absurd hrun (by simp)
    | some p =>
      rw [hcfg] at hrun
      dsimp only at hrun
      cases houd : s.expt.outdir with
      | none => rw [houd] at hrun; exact absurd hrun (by simp)
      | some d =>
        rw [houd] at hrun
        dsimp only at hrun
        injection hrun with h
        subst h
        exact ⟨rfl, rfl⟩

/-- Witness for C6 at a concrete input: task index 3 under output
directory data/Proto/subj gives the zero-padded base name of the spec
example, and the pair is appended to the (empty) data-file list. -/
theorem c6_segment_naming_witness :
    (ok_sys (start_logging true 77 c6_sys)).map
        (fun s1 => (s1.expt.basefname, s1.expt.datafiles)) =
      some (some "data/Proto/subj/task_003_77",
            [("data/Proto/subj/task_003_77", "B")]) := by
  cases hrun : start_logging true 77 c6_sys with
  | error e =>
    have hok : is_ok (start_logging true 77 c6_sys) = true := rfl
    rw [hrun] at hok
    exact absurd hok (by simp [is_ok])
  | ok s1 =>
    have h := c6_segment_naming.1 c6_sys 77 3 taskB s1 rfl rfl rfl hrun
    dsimp only [ok_sys, Option.map]
    rw [h.1, h.2]
    rfl

/-- C1 (amended): the open operation closes the previously open pair
before creating the new one exactly when the recording flag is set at
the call: with the flag set the referenced pair is erased from the open
list before the new base name is appended, while with the flag clear —
the situation whenever the open segment is a non-task segment — the new
pair is appended with the previously open pair left open. -/
theorem c1_close_guarded_by_recording :
    (∀ (s : Sys) (ct : Nat) (b : String) (s1 : Sys),
      s.expt.recording = true → s.expt.openBase = some b →
      start_logging false ct s = Except.ok s1 →
      s1.openPairs = s.openPairs.erase b
        ++ [py_str s.expt.outdir ++ "/" ++ s.expt.params.nontaskpfx
            ++ "_x_" ++ Nat.repr ct])
    ∧ (∀ (s : Sys) (ct : Nat) (b : String) (i : Int) (t : PTask) (s1 : Sys),
      s.expt.recording = true → s.expt.openBase = some b →
      s.expt.currtaskindx = some i → py_get s.expt.tasks i = some t →
      start_logging true ct s = Except.ok s1 →
      s1.openPairs = s.openPairs.erase b
        ++ [py_str s.expt.outdir ++ "/" ++ s.expt.params.taskpfx
            ++ "_" ++ format03d i ++ "_" ++ Nat.repr ct])
    ∧ (∀ (s : Sys) (ct : Nat) (s1 : Sys),
      s.expt.recording = false →
      start_logging false ct s = Except.ok s1 →
      s1.openPairs = s.openPairs
        ++ [py_str s.expt.outdir ++ "/" ++ s.expt.params.nontaskpfx
            ++ "_x_" ++ Nat.repr ct])
    ∧ (∀ (s : Sys) (ct : Nat) (i : Int) (t : PTask) (s1 : Sys),
      s.expt.recording = false →
      s.expt.currtaskindx = some i → py_get s.expt.tasks i = some t →
      start_logging true ct s = Except.ok s1 →
      s1.openPairs = s.openPairs
        ++ [py_str s.expt.outdir ++ "/" ++ s.expt.params.taskpfx
            ++ "_" ++ format03d i ++ "_" ++ Nat.repr ct]) := by
  refine ⟨?_, ?_, ?_, ?_⟩
  · intro s ct b s1 hrec hb hrun
    have hclose : close_on_reopen s = Except.ok (closed_state s b) := by
      unfold close_on_reopen release_pair closed_state
      rw [hb]
      simp [hrec]
    unfold start_logging at hrun
    rw [hclose] at hrun
    unfold closed_state at hrun
    dsimp only at hrun
    unfold start_logging_tail open_writers save_experiment_details at hrun
    dsimp only at hrun
    cases hcfg : s.diskCfg with
    | none => rw [hcfg] at hrun; exact absurd hrun (by simp)
    | some p =>
      rw [hcfg] at hrun
      dsimp only at hrun
      cases houd : s.expt.outdir with
      | none => rw [houd] at hrun; exact absurd hrun (by simp)
      | some d =>
        rw [houd] at hrun
        dsimp only at hrun
        injection hrun with h
        subst h
        rfl
  · intro s ct b i t s1 hrec hb hidx hget hrun
    have hclose : close_on_reopen s = Except.ok (closed_state s b) := by
      unfold close_on_reopen release_pair closed_state
      rw [hb]
      simp [hrec]
    unfold start_logging at hrun
    rw [hclose] at hrun
    unfold closed_state at hrun
    dsimp only at hrun
    unfold start_logging_tail at hrun
    dsimp only at hrun
    rw [hidx] at hrun
    dsimp only at hrun
    rw [hget] at hrun
    unfold open_writers save_experiment_details at hrun
    dsimp only at hrun
    cases hcfg : s.diskCfg with
    | none => rw [hcfg] at hrun; exact absurd hrun (by simp)
    | some p =>
      rw [hcfg] at hrun
      dsimp only at hrun
      cases houd : s.expt.outdir with
      | none => rw [houd] at hrun; exact absurd hrun (by simp)
      | some d =>
        rw [houd] at hrun
        dsimp only at hrun
        injection hrun with h
        subst h
        rfl
  · intro s ct s1 hrec hrun
    have hclose : close_on_reopen s = Except.ok s := by
      simp [close_on_reopen, hrec]
    unfold start_logging at hrun
    rw [hclose] at hrun
    dsimp only at hrun
    unfold start_logging_tail open_writers save_experiment_details at hrun
    dsimp only at hrun
    cases hcfg : s.diskCfg with
    | none => rw [hcfg] at hrun; exact absurd hrun (by simp)
    | some p =>
      rw [hcfg] at hrun
      dsimp only at hrun
      cases houd : s.expt.outdir with
      | none => rw [houd] at hrun; exact absurd hrun (by simp)
      | some d =>
        rw [houd] at hrun
        dsimp only at hrun
        injection hrun with h
        subst h
        rfl
  · intro s ct i t s1 hrec hidx hget hrun
    have hclose : close_on_reopen s = Except.ok s := by
      simp [close_on_reopen, hrec]
    unfold start_logging at hrun
    rw [hclose] at hrun
    dsimp only at hrun
    unfold start_logging_tail at hrun
    dsimp only at hrun
    rw [hidx] at hrun
    dsimp only at hrun
    rw [hget] at hrun
    unfold open_writers save_experiment_details at hrun
    dsimp only at hrun
    cases hcfg : s.diskCfg with
    | none => rw [hcfg] at hrun; exact absurd hrun (by simp)
    | some p =>
      rw [hcfg] at hrun
      dsimp only at hrun
      cases houd : s.expt.outdir with
      | none => rw [houd] at hrun; exact absurd hrun (by simp)
      | some d =>
        rw [houd] at hrun
        dsimp only at hrun
        injection hrun with h
        subst h
        rfl

/-- Witness for C1 (amended) at a concrete input: a non-task open with
the recording flag clear appends the new pair while leaving the open
list prefix untouched. -/
theorem c1_close_guarded_by_recording_witness :
    (ok_sys (start_logging false 9 c6_sys)).map (fun s1 => s1.openPairs) =
      some (c6_sys.openPairs ++ ["data/Proto/subj/unlabelled_x_9"]) := by
  cases hrun : start_logging false 9 c6_sys with
  | error e =>
    have hok : is_ok (start_logging false 9 c6_sys) = true := rfl
    rw [hrun] at hok
    exact absurd hok (by simp [is_ok])
  | ok s1 =>
    have h := c1_close_guarded_by_recording.2.2.1 c6_sys 9 s1 rfl hrun
    dsimp only [ok_sys, Option.map]
    rw [h]
    rfl

/-- Case analysis on the close branch of the open operation: it is the
identity when the recording flag is clear, releases the referenced pair
when the flag is set, and raises when the flag is set with no pair
referenced. -/
theorem close_on_reopen_shape (s : Sys) :
    close_on_reopen s = Except.ok s
    ∨ (∃ b, s.expt.openBase = some b
        ∧ close_on_reopen s = Except.ok (closed_state s b))
    ∨ close_on_reopen s =
        Except.error ("AttributeError: NoneType has no attribute release", s) := by
  by_cases hr : s.expt.recording
  · cases hb : s.expt.openBase with
    | some b =>
      refine Or.inr (Or.inl ⟨b, rfl, ?_⟩)
      unfold close_on_reopen release_pair closed_state
      rw [hb]
      simp [hr]
    | none =>
      refine Or.inr (Or.inr ?_)
      unfold close_on_reopen release_pair
      rw [hb]
      simp [hr]
  · exact Or.inl (by simp [close_on_reopen, hr])

/-- The body of the open operation always ends in the configuration
re-read followed by the manifest rewrite: with the configuration file
unreadable it raises, every raise point leaves the manifest trace
untouched, and on success the re-read parameters are installed and one
manifest snapshot is appended. -/
theorem start_logging_tail_props (task : Bool) (ct : Nat) (s : Sys) :
    (s.diskCfg = none → is_ok (start_logging_tail task ct s) = false)
    ∧ (∀ p s1, s.diskCfg = some p → start_logging_tail task ct s = Except.ok s1 →
        s1.expt.params = p ∧ ∃ m, s1.manifests = s.manifests ++ [m])
    ∧ (∀ m s1, start_logging_tail task ct s = Except.error (m, s1) →
        s1.manifests = s.manifests) := by
  cases task with
  | false =>
    refine ⟨?_, ?_, ?_⟩
    · intro hcfg
      unfold start_logging_tail open_writers save_experiment_details
      dsimp only
      rw [hcfg]
      rfl
    · intro p s1 hp hrun
      unfold start_logging_tail open_writers save_experiment_details at hrun
      dsimp only at hrun
      rw [hp] at hrun
      dsimp only at hrun
      cases houd : s.expt.outdir with
      | none => rw [houd] at hrun; exact absurd hrun (by simp)
      | some d =>
        rw [houd] at hrun
        dsimp only at hrun
        injection hrun with h
        subst h
        exact ⟨rfl, ⟨_, rfl⟩⟩
    · intro m s1 hrun
      unfold start_logging_tail open_writers save_experiment_details at hrun
      dsimp only at hrun
      cases hcfg : s.diskCfg with
      | none =>
        rw [hcfg] at hrun
        dsimp only at hrun
        injection hrun with h
        injection h with h1 h2
        subst h2
        rfl
      | some p =>
        rw [hcfg] at hrun
        dsimp only at hrun
        cases houd : s.expt.outdir with
        | none =>
          rw [houd] at hrun
          dsimp only at hrun
          injection hrun with h
          injection h with h1 h2
          subst h2
          rfl
        | some d =>
          rw [houd] at hrun
          exact absurd hrun (by simp)
  | true =>
    refine ⟨?_, ?_, ?_⟩
    · intro hcfg
      unfold start_logging_tail open_writers save_experiment_details
      dsimp only
      cases hidx : s.expt.currtaskindx with
      | none => rfl
      | some i =>
        dsimp only
        cases hget : py_get s.expt.tasks i with
        | none => rfl
        | some t =>
          dsimp only
          rw [hcfg]
          rfl
    · intro p s1 hp hrun
      unfold start_logging_tail open_writers save_experiment_details at hrun
      dsimp only at hrun
      cases hidx : s.expt.currtaskindx with
      | none => rw [hidx] at hrun; exact absurd hrun (by simp)
      | some i =>
        rw [hidx] at hrun
        dsimp only at hrun
        cases hget : py_get s.expt.tasks i with
        | none => rw [hget] at hrun; exact absurd hrun (by simp)
        | some t =>
          rw [hget] at hrun
          dsimp only at hrun
          rw [hp] at hrun
          dsimp only at hrun
          cases houd : s.expt.outdir with
          | none => rw [houd] at hrun; exact absurd hrun (by simp)
          | some d =>
            rw [houd] at hrun
            dsimp only at hrun
            injection hrun with h
            subst h
            exact ⟨rfl, ⟨_, rfl⟩⟩
    · intro m s1 hrun
      unfold start_logging_tail open_writers save_experiment_details at hrun
      dsimp only at hrun
      cases hidx : s.expt.currtaskindx with
      | none =>
        rw [hidx] at hrun
        dsimp only at hrun
        injection hrun with h
        injection h with h1 h2
        subst h2
        rfl
      | some i =>
        rw [hidx] at hrun
        dsimp only at hrun
        cases hget : py_get s.expt.tasks i with
        | none =>
          rw [hget] at hrun
          dsimp only at hrun
          injection hrun with h
          injection h with h1 h2
          subst h2
          rfl
        | some t =>
          rw [hget] at hrun
          dsimp only at hrun
          cases hcfg : s.diskCfg with
          | none =>
            rw [hcfg] at hrun
            dsimp only at hrun
            injection hrun with h
            injection h with h1 h2
            subst h2
            rfl
          | some p =>
            rw [hcfg] at hrun
            dsimp only at hrun
            cases houd : s.expt.outdir with
            | none =>
              rw [houd] at hrun
              dsimp only at hrun
              injection hrun with h
              injection h with h1 h2
              subst h2
              rfl
            | some d =>
              rw [houd] at hrun
              exact absurd hrun (by simp)

/-- C10: every segment open re-reads expt_params.json from disk before
rewriting the session manifest: when the file is missing or malformed
the open operation fails, and every raise point leaves the manifest
trace untouched; on success the in-memory params are overwritten with
the re-read document and exactly one manifest snapshot is appended. -/
theorem c10_config_reread (s : Sys) (task : Bool) (ct : Nat) :
    (s.diskCfg = none → is_ok (start_logging task ct s) = false)
    ∧ (∀ p s1, s.diskCfg = some p → start_logging task ct s = Except.ok s1 →
        s1.expt.params = p ∧ ∃ m, s1.manifests = s.manifests ++ [m])
    ∧ (∀ m s1, start_logging task ct s = Except.error (m, s1) →
        s1.manifests = s.manifests) := by
  obtain hcl | ⟨b, hb, hcl⟩ | hcl := close_on_reopen_shape s
  · have h := start_logging_tail_props task ct s
    refine ⟨?_, ?_, ?_⟩
    · intro hcfg
      unfold start_logging
      rw [hcl]
      exact h.1 hcfg
    · intro p s1 hp hrun
      unfold start_logging at hrun
      rw [hcl] at hrun
      exact h.2.1 p s1 hp hrun
    · intro m s1 hrun
      unfold start_logging at hrun
      rw [hcl] at hrun
      exact h.2.2 m s1 hrun
  · have h := start_logging_tail_props task ct (closed_state s b)
    refine ⟨?_, ?_, ?_⟩
    · intro hcfg
      unfold start_logging
      rw [hcl]
      exact h.1 hcfg
    · intro p s1 hp hrun
      unfold start_logging at hrun
      rw [hcl] at hrun
      exact h.2.1 p s1 hp hrun
    · intro m s1 hrun
      unfold start_logging at hrun
      rw [hcl] at hrun
      exact h.2.2 m s1 hrun
  · refine ⟨?_, ?_, ?_⟩
    · intro hcfg
      unfold start_logging
      rw [hcl]
      rfl
    · intro p s1 hp hrun
      unfold start_logging at hrun
      rw [hcl] at hrun
      exact absurd hrun (by simp)
    · intro m s1 hrun
      unfold start_logging at hrun
      rw [hcl] at hrun
      dsimp only at hrun
      injection hrun with h
      injection h with h1 h2
      subst h2
      rfl

/-- Witness for C10 at a concrete input: with the configuration present
the open installs the re-read parameters, and with the configuration
file missing the same open fails. -/
theorem c10_config_reread_witness :
    (ok_sys (start_logging false 5 c6_sys)).map (fun s1 => s1.expt.params) =
      some demo_params
    ∧ is_ok (start_logging false 5 { c6_sys with diskCfg := none }) = false := by
  constructor
  · cases hrun : start_logging false 5 c6_sys with
    | error e =>
      have hok : is_ok (start_logging false 5 c6_sys) = true := rfl
      rw [hrun] at hok
      exact absurd hok (by simp [is_ok])
    | ok s1 =>
      have h := (c10_config_reread c6_sys false 5).2.1 demo_params s1 rfl hrun
      dsimp only [ok_sys, Option.map]
      rw [h.1]
  · exact (c10_config_reread { c6_sys with diskCfg := none } false 5).1 rfl

/-- A successful non-negative Python index is below the list length. -/
theorem py_get_lt_length (l : List α) (i : Int) (a : α) (h0 : 0 ≤ i)
    (h : py_get l i = some a) : i < (l.length : Int) := by
  unfold py_get at h
  rw [if_pos h0] at h
  by_contra hlt
  push_neg at hlt
  rw [List.get?_eq_none.mpr (by omega : l.length ≤ i.toNat)] at h
  exact Option.noConfusion h

/-- An in-range non-negative Python index succeeds with a list member. -/
theorem py_get_of_lt (l : List α) (i : Int) (h0 : 0 ≤ i)
    (hlt : i < (l.length : Int)) : ∃ a, py_get l i = some a ∧ a ∈ l := by
  have hn : i.toNat < l.length := by omega
  refine ⟨l.get ⟨i.toNat, hn⟩, ?_, List.get_mem l i.toNat hn⟩
  unfold py_get
  rw [if_pos h0]
  exact List.get?_eq_get hn

/-- C7: in WaitingToRecordTask with a positive current task index i whose
predecessor task exists and carries its two instruction strings, Ctrl+R
re-enters WaitingToRecordTask with the index stepped back to i - 1 (the
decrement by 2 followed by the standard advance-by-one step), clears
the task start and stop timestamps, and neither closes nor reopens any
logged segment: the open pairs, the referenced pair, the base filename,
the data-file list and the manifest trace are all unchanged. -/
theorem c7_redo_in_waiting (s : Sys) (i : Int) (t : PTask) (a b : String)
    (hstate : s.state = RecState.WaitingToRecordTask)
    (hidx : s.expt.currtaskindx = some i)
    (hpos : 0 < i)
    (hget : py_get s.expt.tasks (i - 1) = some t)
    (h0 : py_get t.instr 0 = some a)
    (h1 : py_get t.instr 1 = some b) :
    ∃ s1, key_ctrl_r s = Except.ok s1
      ∧ s1.state = RecState.WaitingToRecordTask
      ∧ s1.expt.currtaskindx = some (i - 1)
      ∧ s1.expt.currtaskstrt = none
      ∧ s1.expt.currtaskstpt = none
      ∧ s1.openPairs = s.openPairs
      ∧ s1.expt.openBase = s.expt.openBase
      ∧ s1.expt.basefname = s.expt.basefname
      ∧ s1.expt.datafiles = s.expt.datafiles
      ∧ s1.manifests = s.manifests := by
  have hlen : i - 1 < (s.expt.tasks.length : Int) :=
    py_get_lt_length s.expt.tasks (i - 1) t (by omega) hget
  unfold key_ctrl_r
  rw [if_neg (show ¬ s.state = RecState.WaitingToStart by simp [hstate])]
  unfold redo_task
  rw [hidx]
  dsimp only
  rw [if_pos hpos]
  unfold prepare_for_the_next_task set_current_task
  simp only [Bool.false_eq_true, if_false]
  rw [if_neg (show ¬ (s.expt.tasks.length : Int) ≤ i - 2 + 1 by omega)]
  dsimp only
  rw [(by omega : i - 2 + 1 = i - 1)]
  rw [hget]
  dsimp only
  rw [h0]
  dsimp only
  rw [h1]
  dsimp only
  exact ⟨_, rfl, rfl, rfl, rfl, rfl, rfl, rfl, rfl, rfl, rfl⟩

/-- Witness for C7 at a concrete input: Ctrl+R at index 1 re-enters
WaitingToRecordTask at index 0. -/
theorem c7_redo_in_waiting_witness :
    (ok_sys (key_ctrl_r c7_sys)).map
      (fun s1 => (s1.state, s1.expt.currtaskindx, s1.openPairs)) =
      some (RecState.WaitingToRecordTask, some 0, []) := by
  obtain ⟨s1, hrun, hst, hidx, _, _, hop, _⟩ :=
    c7_redo_in_waiting c7_sys 1 taskA "stepA" "todoA" rfl rfl (by decide) rfl rfl rfl
  rw [hrun]
  dsimp only [ok_sys, Option.map]
  rw [hst, hidx, hop]
  rfl

/-- C9 (amended): Ctrl+R in any state other than WaitingToStart, with the
current task index set to an integer (and well-formed task instruction
pairs), unconditionally sets the state to WaitingToRecordTask; when the
index is at most 0 the expt container is entirely unchanged. With an
unset index the handler instead raises TypeError and the state is
unchanged, but that configuration is unreachable once a session has
started. -/
theorem c9_ctrl_r_forces_waiting (s : Sys) (i : Int)
    (hstate : s.state ≠ RecState.WaitingToStart)
    (hidx : s.expt.currtaskindx = some i)
    (hwf : ∀ t ∈ s.expt.tasks, 2 ≤ t.instr.length) :
    ∃ s1, key_ctrl_r s = Except.ok s1
      ∧ s1.state = RecState.WaitingToRecordTask
      ∧ (i ≤ 0 → s1.expt = s.expt) := by
  unfold key_ctrl_r
  rw [if_neg hstate]
  unfold redo_task
  rw [hidx]
  dsimp only
  by_cases hpos : 0 < i
  · rw [if_pos hpos]
    unfold prepare_for_the_next_task set_current_task
    simp only [Bool.false_eq_true, if_false]
    by_cases hend : (s.expt.tasks.length : Int) ≤ i - 2 + 1
    · rw [if_pos hend]
      dsimp only
      exact ⟨_, rfl, rfl, fun hle => absurd hpos (by omega)⟩
    · rw [if_neg hend]
      dsimp only
      obtain ⟨t, hget, htmem⟩ :=
        py_get_of_lt s.expt.tasks (i - 2 + 1) (by omega) (by omega)
      rw [hget]
      dsimp only
      obtain ⟨a, ha, _⟩ := py_get_of_lt t.instr 0 (by omega)
        (by have := hwf t htmem; omega)
      obtain ⟨b, hb, _⟩ := py_get_of_lt t.instr 1 (by omega)
        (by have := hwf t htmem; omega)
      rw [ha]
      dsimp only
      rw [hb]
      dsimp only
      exact ⟨_, rfl, rfl, fun hle => absurd hpos (by omega)⟩
  · rw [if_neg hpos]
    dsimp only
    exact ⟨_, rfl, rfl, fun _ => rfl⟩

/-- Witness for C9 (amended) at a concrete input: Ctrl+R in AllDone at
index 0 moves the state to WaitingToRecordTask with the expt container
unchanged. -/
theorem c9_ctrl_r_forces_waiting_witness :
    (ok_sys (key_ctrl_r c9w_sys)).map
      (fun s1 => (s1.state, decide (s1.expt = c9w_sys.expt))) =
      some (RecState.WaitingToRecordTask, true) := by
  obtain ⟨s1, hrun, hst, hexpt⟩ :=
    c9_ctrl_r_forces_waiting c9w_sys 0 (by decide) rfl (by decide)
  rw [hrun]
  dsimp only [ok_sys, Option.map]
  rw [hst, decide_eq_true (hexpt (le_refl 0))]

/-- C8: assigning the recording filename is idempotent by value equality
(an equal assignment performs no file event), while a non-equal
assignment first closes any previously open video/timestamp pair and
then, when the new value is not None, opens value.avi with codec MJPG at
30 frames per second and the fixed 960 by 720 frame size together with
value.vidt. -/
theorem c8_filename_setter :
    (∀ v : Viewer, set_filename v v.filename = Except.ok (v, []))
    ∧ (∀ (v : Viewer) (f : String) (vs : VideoSpec) (fh : String),
        v.filename ≠ some f → v.filename.isSome = true →
        v.video = some vs → v.fhandle = some fh →
        set_filename v (some f) = Except.ok
          ({ v with filename := some f,
                    video := some { path := f ++ ".avi", codec := "MJPG",
                                    fps := 30, size := (v.img_w, v.img_h) },
                    fhandle := some (f ++ ".vidt") },
           [FileEvent.releaseVideo vs, FileEvent.closeTs fh,
            FileEvent.openVideo { path := f ++ ".avi", codec := "MJPG",
                                  fps := 30, size := (v.img_w, v.img_h) },
            FileEvent.openTs (f ++ ".vidt")]))
    ∧ (∀ (v : Viewer) (f : String),
        v.filename = none →
        set_filename v (some f) = Except.ok
          ({ v with filename := some f,
                    video := some { path := f ++ ".avi", codec := "MJPG",
                                    fps := 30, size := (v.img_w, v.img_h) },
                    fhandle := some (f ++ ".vidt") },
           [FileEvent.openVideo { path := f ++ ".avi", codec := "MJPG",
                                  fps := 30, size := (v.img_w, v.img_h) },
            FileEvent.openTs (f ++ ".vidt")]))
    ∧ (∀ (v : Viewer) (vs : VideoSpec) (fh : String),
        v.filename.isSome = true → v.video = some vs → v.fhandle = some fh →
        set_filename v none = Except.ok
          ({ v with filename := none },
           [FileEvent.releaseVideo vs, FileEvent.closeTs fh]))
    ∧ viewer_init.img_w = 960 ∧ viewer_init.img_h = 720 := by
  refine ⟨?_, ?_, ?_, ?_, rfl, rfl⟩
  · intro v
    unfold set_filename
    rw [if_neg (fun h => h rfl)]
  · intro v f vs fh hne hfs hvid hfh
    obtain ⟨g, hg⟩ := Option.isSome_iff_exists.mp hfs
    unfold set_filename
    rw [if_pos hne]
    rw [hg]
    dsimp only
    rw [hvid, hfh]
    rfl
  · intro v f hnone
    unfold set_filename
    rw [if_pos (by rw [hnone]; exact fun h => Option.noConfusion h)]
    rw [hnone]
    rfl
  · intro v vs fh hfs hvid hfh
    obtain ⟨g, hg⟩ := Option.isSome_iff_exists.mp hfs
    unfold set_filename
    rw [if_pos (by rw [hg]; exact fun h => Option.noConfusion h)]
    rw [hg]
    dsimp only
    rw [hvid, hfh]

/-- Witness for C8 at a concrete input: assigning test over the open
recording old closes the old pair and opens test.avi and test.vidt with
the fixed parameters, while re-assigning old is a no-op. -/
theorem c8_filename_setter_witness :
    set_filename c8_viewer (some "test") = Except.ok
      ({ c8_viewer with
          filename := some "test",
          video := some { path := "test.avi", codec := "MJPG", fps := 30,
                          size := (960, 720) },
          fhandle := some "test.vidt" },
       [FileEvent.releaseVideo { path := "old.avi", codec := "MJPG", fps := 30,
                                 size := (960, 720) },
        FileEvent.closeTs "old.vidt",
        FileEvent.openVideo { path := "test.avi", codec := "MJPG", fps := 30,
                              size := (960, 720) },
        FileEvent.openTs "test.vidt"])
    ∧ set_filename c8_viewer (some "old") = Except.ok (c8_viewer, []) :=
  ⟨c8_filename_setter.2.1 c8_viewer "test"
      { path := "old.avi", codec := "MJPG", fps := 30, size := (960, 720) }
      "old.vidt" (by decide) rfl rfl rfl,
   c8_filename_setter.1 c8_viewer⟩

end Parkour
